import Mathlib

/-!
Verification development for the calendar-bot command pipeline (`app.py`).

The Python source is shallowly embedded: pure helpers become Lean functions,
the clock and the two external services (the reasoning service and the
calendar store) become explicit parameters, exceptions become `Except`
values, and Python `None`-or-value becomes `Option`.  External libraries
(`dateutil`, `pytz`, the JSON decoder, the Google Calendar API) are modelled
by executable Lean functions documented next to each definition.
-/

/-! ## Datetime values (embedding of Python `datetime.datetime`)

A `Dt` is a wall-clock reading plus an optional UTC offset in minutes
(`offset = none` models a naive datetime, i.e. `tzinfo is None`). -/

structure Dt where
  year : Nat
  month : Nat
  day : Nat
  hour : Nat
  minute : Nat
  second : Nat
  micro : Nat
  offset : Option Int
deriving DecidableEq

/-- A timezone, as the embedding of a `pytz` timezone object: a name plus the
UTC offset (in minutes) the zone assigns to a given local wall-clock reading.
Daylight-saving transitions are captured by `offsetAt` depending on the
reading. -/
structure Tz where
  name : String
  offsetAt : Dt → Int

/-- Embedding of `pytz.timezone(...).localize(dt)` for a naive `dt`: attach
the zone's UTC offset at that wall-clock instant.  Both call sites in
`app.py` (`to_iso` line 52, `ensure_iso_with_tz` line 59) guard with
`dt.tzinfo is None`, so only the naive case is modelled. -/
def pytz_localize (tz : Tz) (dt : Dt) : Dt :=
  { dt with offset := some (tz.offsetAt dt) }

/-! ## Digit rendering and reading -/

/-- The ASCII digit character for `d < 10`. -/
def digitChar (d : Nat) : Char := Char.ofNat (48 + d)

/-- Two-digit zero-padded decimal rendering, as Python `%02d`. -/
def pad2 (n : Nat) : List Char := [digitChar (n / 10), digitChar (n % 10)]

/-- Four-digit zero-padded decimal rendering, as Python `%04d`. -/
def pad4 (n : Nat) : List Char := pad2 (n / 100) ++ pad2 (n % 100)

/-- Six-digit zero-padded decimal rendering (microseconds). -/
def pad6 (n : Nat) : List Char := pad2 (n / 10000) ++ pad2 (n / 100 % 100) ++ pad2 (n % 100)

/-- Value of one ASCII digit character, `none` on non-digits. -/
def dval (c : Char) : Option Nat :=
  if c = '0' then some 0 else if c = '1' then some 1 else if c = '2' then some 2
  else if c = '3' then some 3 else if c = '4' then some 4 else if c = '5' then some 5
  else if c = '6' then some 6 else if c = '7' then some 7 else if c = '8' then some 8
  else if c = '9' then some 9 else none

/-- Read exactly two digit characters. -/
def read2 : List Char → Option (Nat × List Char)
  | a :: b :: r =>
    match dval a, dval b with
    | some x, some y => some (x * 10 + y, r)
    | _, _ => none
  | _ => none

/-- Read exactly four digit characters. -/
def read4 (cs : List Char) : Option (Nat × List Char) :=
  match read2 cs with
  | none => none
  | some (a, r) =>
    match read2 r with
    | none => none
    | some (b, r2) => some (a * 100 + b, r2)

/-- Consume one expected character. -/
def expect (c : Char) : List Char → Option (List Char)
  | x :: r => if x = c then some r else none
  | [] => none

/-! ## ISO-8601 rendering (embedding of `datetime.isoformat`) -/

/-- Rendering of the UTC offset as Python `isoformat` does: sign then
`HH:MM` of the absolute offset; nothing for a naive datetime. -/
def offsetChars : Option Int → List Char
  | none => []
  | some off =>
    let a := off.natAbs
    (if 0 ≤ off then '+' else '-') :: (pad2 (a / 60) ++ ':' :: pad2 (a % 60))

/-- Character list of `dt.isoformat(timespec="seconds")`: wall clock truncated
to whole seconds, offset appended when the value is timezone-aware. -/
def isoSecondsChars (dt : Dt) : List Char :=
  pad4 dt.year ++ '-' :: (pad2 dt.month ++ '-' :: (pad2 dt.day ++
    'T' :: (pad2 dt.hour ++ ':' :: (pad2 dt.minute ++ ':' :: (pad2 dt.second ++
      offsetChars dt.offset)))))

/-- Embedding of `dt.isoformat(timespec="seconds")`. -/
def isoformat_seconds (dt : Dt) : String := String.mk (isoSecondsChars dt)

/-- Embedding of `dt.isoformat()` (default `timespec`): microseconds are
printed only when nonzero. -/
def isoformat_auto (dt : Dt) : String :=
  String.mk (pad4 dt.year ++ '-' :: (pad2 dt.month ++ '-' :: (pad2 dt.day ++
    'T' :: (pad2 dt.hour ++ ':' :: (pad2 dt.minute ++ ':' :: (pad2 dt.second ++
      (if dt.micro = 0 then [] else '.' :: pad6 dt.micro) ++
      offsetChars dt.offset))))))

/-! ## Timestamp parsing (model of `dateutil.parser.parse`)

`dateutil` accepts many formats; the model covers the ISO-8601 family the
program itself produces and consumes: `YYYY-MM-DD`, optionally followed by
`T` or a space and `HH:MM[:SS[.ffffff]]` with an optional `Z`/`±HH[:]MM`
offset.  Strings outside this family are modelled as parse failures
(`dateutil.parser.ParserError`). -/

/-- Microsecond value of the digit run after the decimal point: `dateutil`
keeps the first six fractional digits, right-padded with zeros. -/
def microOfDigits (ds : List Char) : Nat :=
  (ds.take 6 ++ List.replicate (6 - ds.length) '0').foldl
    (fun a c => a * 10 + (c.toNat - 48)) 0

/-- Parse a trailing UTC offset: `Z`, or a sign, two hour digits, an optional
colon, and two minute digits. -/
def parseOffset : List Char → Option (Int × List Char)
  | [] => none
  | c :: r =>
    if c = 'Z' then some (0, r)
    else if c = '+' || c = '-' then
      match read2 r with
      | none => none
      | some (hh, r1) =>
        let r1b := match r1 with
          | ':' :: rest => rest
          | _ => r1
        match read2 r1b with
        | none => none
        | some (mm, r2) =>
          if hh ≤ 23 ∧ mm ≤ 59 then
            some (if c = '-' then -(hh * 60 + mm : Int) else (hh * 60 + mm : Int), r2)
          else none
    else none

/-- Optional `:SS` seconds component (0 when absent). -/
def parseSecPart : List Char → Option (Nat × List Char)
  | ':' :: rs =>
    match read2 rs with
    | none => none
    | some (s, rr) => if s ≤ 59 then some (s, rr) else none
  | r => some (0, r)

/-- Optional `.ffff` fractional-seconds component (0 when absent). -/
def parseFracPart : List Char → Option (Nat × List Char)
  | '.' :: rs =>
    let ds := rs.takeWhile Char.isDigit
    if ds.isEmpty then none
    else some (microOfDigits ds, rs.dropWhile Char.isDigit)
  | r => some (0, r)

/-- Optional offset component: when the next character opens an offset it must
parse completely, otherwise the datetime is naive. -/
def parseOffPart : List Char → Option (Option Int × List Char)
  | [] => some (none, [])
  | c :: r =>
    if c = 'Z' || c = '+' || c = '-' then
      match parseOffset (c :: r) with
      | none => none
      | some (o, rr) => some (some o, rr)
    else some (none, c :: r)

/-- Core of the `dateutil.parser.parse` model, over character lists. -/
def parseDtChars (cs : List Char) : Option Dt :=
  match read4 cs with
  | none => none
  | some (y, r0) =>
  match expect '-' r0 with
  | none => none
  | some r1 =>
  match read2 r1 with
  | none => none
  | some (mo, r2) =>
  match expect '-' r2 with
  | none => none
  | some r3 =>
  match read2 r3 with
  | none => none
  | some (d, r4) =>
  if 1 ≤ mo ∧ mo ≤ 12 ∧ 1 ≤ d ∧ d ≤ 31 then
    match r4 with
    | [] => some ⟨y, mo, d, 0, 0, 0, 0, none⟩
    | c :: r5 =>
      if c = 'T' || c = ' ' then
        match read2 r5 with
        | none => none
        | some (h, r6) =>
        match expect ':' r6 with
        | none => none
        | some r7 =>
        match read2 r7 with
        | none => none
        | some (mi, r8) =>
        match parseSecPart r8 with
        | none => none
        | some (sec, r9) =>
        match parseFracPart r9 with
        | none => none
        | some (mic, r10) =>
        match parseOffPart r10 with
        | none => none
        | some (off, r11) =>
        if r11 = [] ∧ h ≤ 23 ∧ mi ≤ 59 then
          some ⟨y, mo, d, h, mi, sec, mic, off⟩
        else none
      else none
  else none

/-- Model of `dateutil.parser.parse` on strings (see the note above on the
covered grammar). -/
def dateparser_parse (s : String) : Option Dt := parseDtChars s.toList

/-! ## Time helpers (`app.py` lines 48-61) -/

/-- Embedding of `to_iso` (`app.py` lines 51-54): localize to the global
`BOT_TZ` when naive, then render with `timespec="seconds"`.  The configured
`BOT_TZ` is passed explicitly as `botTz`. -/
def to_iso (botTz : Tz) (dt : Dt) : String :=
  isoformat_seconds (if dt.offset = none then pytz_localize botTz dt else dt)

/-- Exceptions that can escape the embedded Python code. -/
inductive PyErr where
  | parserError
  | typeError
  | attributeError
  | httpError
  | requestsError
  | jsonDecodeError
deriving DecidableEq

/-- Embedding of `ensure_iso_with_tz` (`app.py` lines 56-61): parse the
string (raising `ParserError` on failure, modelled as `Except.error`),
localize to `tz` when the parse is naive, then render via `to_iso`. -/
def ensure_iso_with_tz (botTz : Tz) (s : String) (tz : Tz) : Except PyErr String :=
  match dateparser_parse s with
  | none => .error .parserError
  | some dt =>
    .ok (to_iso botTz (if dt.offset = none then pytz_localize tz dt else dt))

/-! ## Round-trip lemmas for the renderer and the parse model -/

theorem dval_digitChar (d : Nat) (h : d < 10) : dval (digitChar d) = some d := by
  interval_cases d <;> decide

theorem dval_lt {c : Char} {n : Nat} (h : dval c = some n) : n < 10 := by
  unfold dval at h
  split_ifs at h <;> simp at h <;> omega

theorem read2_pad2 (n : Nat) (h : n < 100) (r : List Char) :
    read2 (pad2 n ++ r) = some (n, r) := by
  have h1 : n / 10 < 10 := Nat.div_lt_of_lt_mul (by omega)
  have h2 : n % 10 < 10 := Nat.mod_lt _ (by omega)
  simp [pad2, read2, dval_digitChar _ h1, dval_digitChar _ h2, Nat.div_add_mod' n 10]

theorem read2_lt {cs r : List Char} {n : Nat} (h : read2 cs = some (n, r)) : n < 100 := by
  unfold read2 at h
  split at h
  · rename_i a b rest
    split at h
    · rename_i x y hx hy
      have hx10 := dval_lt hx
      have hy10 := dval_lt hy
      simp only [Option.some.injEq, Prod.mk.injEq] at h
      omega
    · exact absurd h (by simp)
  · exact absurd h (by simp)

theorem read4_pad4 (n : Nat) (h : n < 10000) (r : List Char) :
    read4 (pad4 n ++ r) = some (n, r) := by
  have h1 : n / 100 < 100 := Nat.div_lt_of_lt_mul (by omega)
  have h2 : n % 100 < 100 := Nat.mod_lt _ (by omega)
  simp [pad4, read4, List.append_assoc, read2_pad2 _ h1, read2_pad2 _ h2,
    Nat.div_add_mod' n 100]

theorem read4_lt {cs r : List Char} {n : Nat} (h : read4 cs = some (n, r)) : n < 10000 := by
  unfold read4 at h
  split at h
  · exact absurd h (by simp)
  · rename_i a r1 ha
    split at h
    · exact absurd h (by simp)
    · rename_i b r2 hb
      have ha100 := read2_lt ha
      have hb100 := read2_lt hb
      simp only [Option.some.injEq, Prod.mk.injEq] at h
      omega

theorem expect_cons (c : Char) (r : List Char) : expect c (c :: r) = some r := by
  simp [expect]

/-- The offset rendering parses back to the same offset, for real-world
offsets (|off| below 24 hours). -/
theorem parseOffset_offsetChars (off : Int) (h : off.natAbs ≤ 1439) (r : List Char) :
    parseOffset (offsetChars (some off) ++ r) = some (off, r) := by
  have h60 : off.natAbs / 60 ≤ 23 := by omega
  have hm : off.natAbs % 60 ≤ 59 := by omega
  have hww : off.natAbs / 60 < 100 := by omega
  have hmm : off.natAbs % 60 < 100 := by omega
  by_cases hs : 0 ≤ off <;>
  · simp [offsetChars, hs, parseOffset, List.append_assoc, read2_pad2 _ hww,
      read2_pad2 _ hmm, expect_cons, h60, hm]
    rw [Int.abs_eq_natAbs]
    omega

/-- The fractional-seconds reader leaves an offset rendering untouched (its
head is a sign or `Z`, never a decimal point). -/
theorem parseFracPart_offsetChars (off : Int) :
    parseFracPart (offsetChars (some off)) = some (0, offsetChars (some off)) := by
  by_cases hs : 0 ≤ off <;> simp [offsetChars, hs, parseFracPart]

/-- The optional-offset reader consumes a whole offset rendering. -/
theorem parseOffPart_offsetChars (off : Int) (h : off.natAbs ≤ 1439) :
    parseOffPart (offsetChars (some off)) = some (some off, []) := by
  have hp := parseOffset_offsetChars off h []
  rw [List.append_nil] at hp
  by_cases hs : 0 ≤ off <;>
    simp only [offsetChars, hs, if_true, if_false, ite_true, ite_false] at hp ⊢ <;>
    simp [parseOffPart, hp]

/-- Rendering an aware datetime with `timespec="seconds"` and parsing it back
recovers every field except microseconds, which the rendering truncates. -/
theorem parseDtChars_isoSecondsChars (dt : Dt) (off : Int)
    (hoffv : dt.offset = some off)
    (hy : dt.year < 10000) (hmo1 : 1 ≤ dt.month) (hmo2 : dt.month ≤ 12)
    (hd1 : 1 ≤ dt.day) (hd2 : dt.day ≤ 31) (hh : dt.hour ≤ 23)
    (hmi : dt.minute ≤ 59) (hs : dt.second ≤ 59)
    (hoff : off.natAbs ≤ 1439) :
    parseDtChars (isoSecondsChars dt) = some { dt with micro := 0 } := by
  obtain ⟨y, mo, d, h, mi, s, mic, o⟩ := dt
  simp only at hoffv hy hmo1 hmo2 hd1 hd2 hh hmi hs
  subst hoffv
  have hmo100 : mo < 100 := by omega
  have hd100 : d < 100 := by omega
  have hh100 : h < 100 := by omega
  have hmi100 : mi < 100 := by omega
  have hs100 : s < 100 := by omega
  simp [isoSecondsChars, parseDtChars, read4_pad4 _ hy, expect_cons,
    read2_pad2 _ hmo100, read2_pad2 _ hd100, read2_pad2 _ hh100,
    read2_pad2 _ hmi100, read2_pad2 _ hs100, parseSecPart,
    parseFracPart_offsetChars, parseOffPart_offsetChars off hoff,
    hmo1, hmo2, hd1, hd2, hh, hmi, hs]

theorem parseSecPart_le {r r' : List Char} {s : Nat}
    (h : parseSecPart r = some (s, r')) : s ≤ 59 := by
  unfold parseSecPart at h
  split at h
  · split at h
    · exact absurd h (by simp)
    · split at h
      · simp only [Option.some.injEq, Prod.mk.injEq] at h
        omega
      · exact absurd h (by simp)
  · simp only [Option.some.injEq, Prod.mk.injEq] at h
    omega

/-- Field bounds guaranteed by a successful parse. -/
theorem parseDtChars_bounds {cs : List Char} {dt : Dt} (h : parseDtChars cs = some dt) :
    dt.year < 10000 ∧ 1 ≤ dt.month ∧ dt.month ≤ 12 ∧ 1 ≤ dt.day ∧ dt.day ≤ 31 ∧
    dt.hour ≤ 23 ∧ dt.minute ≤ 59 ∧ dt.second ≤ 59 := by
  unfold parseDtChars at h
  repeat' split at h
  all_goals try exact Option.noConfusion h
  all_goals injection h with h
  all_goals subst h
  · have hy := read4_lt (by assumption)
    dsimp only
    omega
  · have hy := read4_lt (by assumption)
    have hsec := parseSecPart_le (by assumption)
    dsimp only
    omega

/-- C4: for a timestamp string without an explicit UTC offset,
`ensure_iso_with_tz` attaches the reference timezone's offset at that instant
and renders an ISO-8601 string with explicit numeric offset truncated to
second precision; parsing that output back yields the same wall-clock reading
(year through second) carrying that offset. -/
theorem C4_naive_timestamp_roundtrip (botTz tz : Tz) (s : String) (dt : Dt)
    (hp : dateparser_parse s = some dt) (hnaive : dt.offset = none)
    (hoff : (tz.offsetAt dt).natAbs ≤ 1439) :
    ensure_iso_with_tz botTz s tz =
      .ok (isoformat_seconds { dt with offset := some (tz.offsetAt dt) }) ∧
    dateparser_parse (isoformat_seconds { dt with offset := some (tz.offsetAt dt) }) =
      some { dt with micro := 0, offset := some (tz.offsetAt dt) } := by
  obtain ⟨hy, hmo1, hmo2, hd1, hd2, hh, hmi, hs⟩ := parseDtChars_bounds hp
  constructor
  · unfold ensure_iso_with_tz
    rw [hp]
    simp [to_iso, pytz_localize, hnaive]
  · show parseDtChars (isoformat_seconds { dt with offset := some (tz.offsetAt dt) }).toList = _
    have hL : (isoformat_seconds { dt with offset := some (tz.offsetAt dt) }).toList
        = isoSecondsChars { dt with offset := some (tz.offsetAt dt) } := rfl
    rw [hL]
    exact parseDtChars_isoSecondsChars _ (tz.offsetAt dt) rfl hy hmo1 hmo2 hd1 hd2 hh hmi hs hoff

/-- Witness for C4 at a concrete input: the naive string
`2025-01-11T18:00:00` in a fixed +05:30 zone. -/
theorem C4_naive_timestamp_roundtrip_witness :
    dateparser_parse "2025-01-11T18:00:00" = some ⟨2025, 1, 11, 18, 0, 0, 0, none⟩ ∧
    ensure_iso_with_tz ⟨"Asia/Kolkata", fun _ => 330⟩ "2025-01-11T18:00:00"
        ⟨"Asia/Kolkata", fun _ => 330⟩ =
      .ok (isoformat_seconds ⟨2025, 1, 11, 18, 0, 0, 0, some 330⟩) ∧
    dateparser_parse (isoformat_seconds ⟨2025, 1, 11, 18, 0, 0, 0, some 330⟩) =
      some ⟨2025, 1, 11, 18, 0, 0, 0, some 330⟩ := by
  have hp : dateparser_parse "2025-01-11T18:00:00" = some ⟨2025, 1, 11, 18, 0, 0, 0, none⟩ := by
    decide
  have h := C4_naive_timestamp_roundtrip ⟨"Asia/Kolkata", fun _ => 330⟩
    ⟨"Asia/Kolkata", fun _ => 330⟩ "2025-01-11T18:00:00" ⟨2025, 1, 11, 18, 0, 0, 0, none⟩
    hp rfl (by decide)
  exact ⟨hp, h.1, h.2⟩

/-! ## JSON values (model of `json.loads` results)

Numbers are modelled as integers: the command schema only uses integer
numbers; fractional and exponent literals are outside the model and treated
as parse failures, as are `NaN`/`Infinity` and surrogate escape pairs. -/

inductive JVal where
  | null
  | bool (b : Bool)
  | num (n : Int)
  | str (s : String)
  | arr (xs : List JVal)
  | obj (kvs : List (String × JVal))

/-- Python truthiness of a decoded JSON value (`if not x`). -/
def jfalsy : JVal → Bool
  | .null => true
  | .bool b => !b
  | .num n => n == 0
  | .str s => s == ""
  | .arr xs => xs.isEmpty
  | .obj kvs => kvs.isEmpty

/-- Python `dict.get`: value of the first (unique) binding of `k`. -/
def jget (kvs : List (String × JVal)) (k : String) : Option JVal :=
  match kvs with
  | [] => none
  | (k2, v) :: rest => if k2 = k then some v else jget rest k

/-- Python dict insertion semantics: an existing key keeps its position and
gets the new value, a new key is appended. -/
def insertKV (kvs : List (String × JVal)) (k : String) (v : JVal) :
    List (String × JVal) :=
  match kvs with
  | [] => [(k, v)]
  | (k2, v2) :: rest =>
    if k2 = k then (k2, v) :: rest else (k2, v2) :: insertKV rest k v

/-- Python item assignment `data[k] = v`: only dicts support it here; on any
other decoded value a `TypeError` is raised. -/
def jset : JVal → String → JVal → Except PyErr JVal
  | .obj kvs, k, v => .ok (.obj (insertKV kvs k v))
  | _, _, _ => .error .typeError

/-- Whitespace per Python `str.strip` (ASCII subset). -/
def pyIsSpace (c : Char) : Bool :=
  c = ' ' ∨ c = '\t' ∨ c = '\n' ∨ c = '\r' ∨ c = Char.ofNat 11 ∨ c = Char.ofNat 12

/-- Model of Python `str.strip()`: drop leading and trailing whitespace. -/
def py_strip (s : String) : String :=
  String.mk (((s.toList.dropWhile pyIsSpace).reverse.dropWhile pyIsSpace).reverse)

/-- ASCII lowercasing of one character. -/
def pyToLowerChar (c : Char) : Char :=
  if 65 ≤ c.toNat ∧ c.toNat ≤ 90 then Char.ofNat (c.toNat + 32) else c

/-- Model of Python `str.lower()` (ASCII; the keyword tables are ASCII). -/
def py_lower (s : String) : String := String.mk (s.toList.map pyToLowerChar)

/-- Contiguous-sublist test on character lists. -/
def listIsInfix (needle : List Char) : List Char → Bool
  | [] => needle.isEmpty
  | c :: t => needle.isPrefixOf (c :: t) || listIsInfix needle t

/-- Python substring test `needle in hay` on strings. -/
def strContains (hay needle : String) : Bool :=
  listIsInfix needle.toList hay.toList

/-- Consume an expected literal character sequence. -/
def expectLit (lit : List Char) (cs : List Char) : Option (List Char) :=
  if lit.isPrefixOf cs then some (cs.drop lit.length) else none

/-- Python `k in data` for a decoded JSON value: key membership on dicts,
element equality on lists, substring test on strings, `TypeError` otherwise. -/
def pyContains : JVal → String → Except PyErr Bool
  | .obj kvs, k => .ok (kvs.any (fun p => p.1 == k))
  | .arr xs, k => .ok (xs.any (fun v => match v with | .str s => s == k | _ => false))
  | .str s, k => .ok (strContains s k)
  | _, _ => .error .typeError

/-- Python `str()` as used in the reply f-strings.  The claims only exercise
string summaries; the renderings of container values are an approximation. -/
def pyStr : JVal → String
  | .str s => s
  | .num n => toString n
  | .bool true => "True"
  | .bool false => "False"
  | .null => "None"
  | .arr _ => "[...]"
  | .obj _ => "[object]"

/-- Coercion to `str` at points where the Python code would crash with a
`TypeError` on a non-string (e.g. `dateutil.parser.parse(5)`). -/
def asStr : JVal → Except PyErr String
  | .str s => .ok s
  | _ => .error .typeError

/-! ## A JSON text parser (model of `json.loads`) -/

/-- Skip JSON insignificant whitespace. -/
def skipWs : List Char → List Char
  | c :: r => if c = ' ' ∨ c = '\t' ∨ c = '\n' ∨ c = '\r' then skipWs r else c :: r
  | [] => []

/-- Value of one hexadecimal digit. -/
def hval (c : Char) : Option Nat :=
  match dval c with
  | some d => some d
  | none =>
    if c = 'a' ∨ c = 'A' then some 10 else if c = 'b' ∨ c = 'B' then some 11
    else if c = 'c' ∨ c = 'C' then some 12 else if c = 'd' ∨ c = 'D' then some 13
    else if c = 'e' ∨ c = 'E' then some 14 else if c = 'f' ∨ c = 'F' then some 15
    else none

/-- Single-character JSON escapes. -/
def escChar (c : Char) : Option Char :=
  if c = '"' then some '"' else if c = '\\' then some '\\'
  else if c = '/' then some '/' else if c = 'b' then some (Char.ofNat 8)
  else if c = 'f' then some (Char.ofNat 12) else if c = 'n' then some '\n'
  else if c = 'r' then some '\r' else if c = 't' then some '\t' else none

/-- JSON string body reader (after the opening quote); `acc` is reversed. -/
def parseJStringAux : Nat → List Char → List Char → Option (String × List Char)
  | 0, _, _ => none
  | _, _, [] => none
  | fuel+1, acc, c :: r =>
    if c = '"' then some (String.mk acc.reverse, r)
    else if c = '\\' then
      match r with
      | [] => none
      | e :: r2 =>
        if e = 'u' then
          match r2 with
          | a :: b :: c2 :: d :: r3 =>
            match hval a, hval b, hval c2, hval d with
            | some x1, some x2, some x3, some x4 =>
              let code := ((x1 * 16 + x2) * 16 + x3) * 16 + x4
              if 0xD800 ≤ code ∧ code < 0xE000 then none
              else parseJStringAux fuel (Char.ofNat code :: acc) r3
            | _, _, _, _ => none
          | _ => none
        else
          match escChar e with
          | some ce => parseJStringAux fuel (ce :: acc) r2
          | none => none
    else if c.toNat < 32 then none
    else parseJStringAux fuel (c :: acc) r

/-- JSON integer literal (no leading zeros, no fraction/exponent — see the
model note on `JVal`). -/
def parseJNum (cs : List Char) : Option (Int × List Char) :=
  let signed := match cs with
    | '-' :: r => (true, r)
    | _ => (false, cs)
  let neg := signed.1
  let cs1 := signed.2
  let ds := cs1.takeWhile Char.isDigit
  let rest := cs1.dropWhile Char.isDigit
  if ds.isEmpty then none
  else if 1 < ds.length ∧ ds.headD 'x' = '0' then none
  else match rest with
    | '.' :: _ => none
    | 'e' :: _ => none
    | 'E' :: _ => none
    | _ =>
      let v : Int := ds.foldl (fun a c => a * 10 + ((c.toNat : Int) - 48)) 0
      some (if neg then -v else v, rest)

mutual

/-- Fuel-driven JSON value reader. -/
def parseJVal : Nat → List Char → Option (JVal × List Char)
  | 0, _ => none
  | fuel+1, cs =>
    match skipWs cs with
    | [] => none
    | c :: r =>
      if c = 'n' then (expectLit ['u', 'l', 'l'] r).map (fun rr => (JVal.null, rr))
      else if c = 't' then (expectLit ['r', 'u', 'e'] r).map (fun rr => (JVal.bool true, rr))
      else if c = 'f' then (expectLit ['a', 'l', 's', 'e'] r).map (fun rr => (JVal.bool false, rr))
      else if c = '"' then
        (parseJStringAux (r.length + 1) [] r).map (fun p => (JVal.str p.1, p.2))
      else if c = Char.ofNat 123 then parseJObj fuel (skipWs r) []
      else if c = '[' then parseJArr fuel (skipWs r) []
      else (parseJNum (c :: r)).map (fun p => (JVal.num p.1, p.2))

/-- JSON object reader, after the opening brace and whitespace. -/
def parseJObj : Nat → List Char → List (String × JVal) → Option (JVal × List Char)
  | 0, _, _ => none
  | fuel+1, cs, acc =>
    match cs with
    | [] => none
    | c :: r =>
      if c = Char.ofNat 125 then
        if acc.isEmpty then some (.obj [], r) else none
      else if c = '"' then
        match parseJStringAux (r.length + 1) [] r with
        | none => none
        | some (k, r1) =>
          match skipWs r1 with
          | ':' :: r2 =>
            match parseJVal fuel (skipWs r2) with
            | none => none
            | some (v, r3) =>
              let acc2 := insertKV acc k v
              match skipWs r3 with
              | ',' :: r4 => parseJObj fuel (skipWs r4) acc2
              | c2 :: r4 => if c2 = Char.ofNat 125 then some (.obj acc2, r4) else none
              | [] => none
          | _ => none
      else none

/-- JSON array reader, after the opening bracket and whitespace. -/
def parseJArr : Nat → List Char → List JVal → Option (JVal × List Char)
  | 0, _, _ => none
  | fuel+1, cs, acc =>
    match cs with
    | [] => none
    | c :: r =>
      if c = ']' ∧ acc.isEmpty then some (.arr [], r)
      else
        match parseJVal fuel (c :: r) with
        | none => none
        | some (v, r1) =>
          match skipWs r1 with
          | ',' :: r2 => parseJArr fuel (skipWs r2) (acc ++ [v])
          | ']' :: r2 => some (.arr (acc ++ [v]), r2)
          | _ => none

end

/-- Model of `json.loads` over the grammar described at `JVal`. -/
def json_loads (s : String) : Option JVal :=
  let cs := s.toList
  match parseJVal (cs.length + 1) cs with
  | none => none
  | some (v, rest) => if skipWs rest = [] then some v else none

/-- Model of `re.search(r"\x7b.*\x7d", text, flags=re.DOTALL)` followed by
`m.group(0)`: with the greedy pattern this is the span from the first opening
brace to the last closing brace, provided the closing brace comes later. -/
def regex_extract_obj (s : String) : Option String :=
  let cs := s.toList
  match cs.findIdx? (fun c => c = Char.ofNat 123) with
  | none => none
  | some i =>
    match cs.reverse.findIdx? (fun c => c = Char.ofNat 125) with
    | none => none
    | some jr =>
      let j := cs.length - 1 - jr
      if i < j then some (String.mk ((cs.drop i).take (j - i + 1))) else none

/-! ## Reasoning-service adapter (embedding of `gemini_parse_command`,
`app.py` lines 111-168) -/

/-- One element of `candidates[0].content.parts`: either a JSON object
(whose `text` field, when present, is the decoded value) or some other JSON
value. -/
inductive GPart where
  | dict (text : Option JVal)
  | nondict

structure GContent where
  parts : Option (List GPart)

structure GCand where
  content : Option GContent

/-- The decoded JSON body of a successful service response. -/
structure GPayload where
  candidates : Option (List GCand)

/-- Outcome of `requests.post` to the reasoning service: a transport-level
exception, or a completed HTTP response whose body either decodes as JSON
(`some payload`) or does not (`none`, making `r.json()` raise). -/
inductive GeminiHttp where
  | netError
  | response (status : Nat) (body : Option GPayload)

/-- The safe text extraction of lines 137-143:
`cand = (payload.get("candidates") or [\x7b\x7d])[0]`, then
`content = cand.get("content") or \x7b\x7d`, `parts = content.get("parts") or []`,
and `text = parts[0].get("text", "")` when `parts` is nonempty with a dict head. -/
def extract_text (p : GPayload) : Option JVal :=
  let cands : List GCand :=
    match p.candidates with
    | none => [⟨none⟩]
    | some [] => [⟨none⟩]
    | some (c :: cs) => c :: cs
  let cand : GCand :=
    match cands with
    | [] => ⟨none⟩
    | c :: _ => c
  let content : GContent :=
    match cand.content with
    | none => ⟨none⟩
    | some ct => ct
  let parts : List GPart :=
    match content.parts with
    | none => []
    | some ps => ps
  match parts with
  | GPart.dict t :: _ => some (t.getD (.str ""))
  | _ => none

/-- The apostrophe character, kept out of string literals. -/
def apos : String := String.singleton (Char.ofNat 39)

def create_keywords : List String := ["add", "schedule", "create", "book"]

def delete_keywords : List String := ["delete", "remove", "cancel"]

def list_keywords : List String := ["show", "list", "what" ++ apos ++ "s", "upcoming"]

/-- Python `any(k in lowered for k in kws)`. -/
def kwAny (lowered : String) (kws : List String) : Bool :=
  kws.any (fun k => strContains lowered k)

/-- Lines 156-163: when the decoded data has no `intent`, guess one from
keyword families over the lowercased user text.  Item assignment on a
non-dict raises. -/
def intent_fallback (userText : String) (data : JVal) : Except PyErr JVal := do
  let has ← pyContains data "intent"
  if has then pure data
  else
    let lowered := py_lower userText
    if kwAny lowered create_keywords then jset data "intent" (.str "create")
    else if kwAny lowered delete_keywords then jset data "intent" (.str "delete")
    else if kwAny lowered list_keywords then jset data "intent" (.str "list")
    else pure data

/-- The try-block body of `gemini_parse_command` (lines 130-165); exceptions
propagate as `Except.error` to the surrounding handler. -/
def gemini_try (userText : String) (botTz : Tz) (now : Dt) (resp : GeminiHttp) :
    Except PyErr (Option JVal) := do
  let _now_iso := to_iso botTz now
  match resp with
  | .netError => throw .requestsError
  | .response status body =>
    if 400 ≤ status then throw .httpError
    else
      match body with
      | none => throw .jsonDecodeError
      | some payload =>
        match extract_text payload with
        | none => pure none
        | some tv =>
          if jfalsy tv then pure none
          else
            match tv with
            | .str t0 =>
              let t1 := py_strip t0
              let t2 := (regex_extract_obj t1).getD t1
              match json_loads t2 with
              | none => throw .jsonDecodeError
              | some data => intent_fallback userText data
            | _ => throw .attributeError

/-- Embedding of `gemini_parse_command` (lines 111-168).  The `tz_name`
argument is the global `BOT_TZ` at the only call site (line 217), passed here
as `botTz`; the current instant is the explicit `now`. -/
def gemini_parse_command (userText : String) (botTz : Tz) (now : Dt)
    (resp : GeminiHttp) : Option JVal :=
  match gemini_try userText botTz now resp with
  | .ok v => v
  | .error _ => none

/-! ## Calendar store (external collaborator)

The Google Calendar API is modelled from the spec's interface description
(section 6): list-events returns events at or after the time lower bound,
filtered by the free-text term against the summary, ordered by start time
ascending, limited to `maxResults`; a time bound without offset or
non-integer parameters are rejected (`HttpError`). -/

structure Event where
  id : String
  summary : String
  start : Dt
deriving DecidableEq

/-- Store state, plus whether the next insert is rejected by the API. -/
structure Store where
  events : List Event
  insertFails : Bool

/-- Days since 1970-01-01 of a civil date (the standard civil-from-days
algorithm with floor division; exercised for years ≥ 1). -/
def daysFromCivil (y m d : Int) : Int :=
  let y2 := if m ≤ 2 then y - 1 else y
  let era := y2 / 400
  let yoe := y2 - era * 400
  let mp := if 2 < m then m - 3 else m + 9
  let doy := (153 * mp + 2) / 5 + d - 1
  let doe := yoe * 365 + yoe / 4 - yoe / 100 + doy
  era * 146097 + doe - 719468

/-- Inverse of `daysFromCivil` (floor-division variant). -/
def civilFromDays (z0 : Int) : Int × Int × Int :=
  let z := z0 + 719468
  let era := z / 146097
  let doe := z - era * 146097
  let yoe := (doe - doe / 1460 + doe / 36524 - doe / 146096) / 365
  let y := yoe + era * 400
  let doy := doe - (365 * yoe + yoe / 4 - yoe / 100)
  let mp := (5 * doy + 2) / 153
  let d := doy - (153 * mp + 2) / 5 + 1
  let m := if mp < 10 then mp + 3 else mp - 9
  (if m ≤ 2 then y + 1 else y, m, d)

/-- Absolute instant in microseconds since the epoch; values without an
offset are compared as UTC. -/
def epochMicro (dt : Dt) : Int :=
  ((daysFromCivil dt.year dt.month dt.day * 86400
    + dt.hour * 3600 + dt.minute * 60 + dt.second) * 1000000 + dt.micro)
  - (dt.offset.getD 0) * 60000000

/-- Embedding of `datetime + timedelta(seconds=s)`: wall-clock arithmetic
with calendar rollover; tzinfo and microseconds unchanged. -/
def dt_add_seconds (dt : Dt) (s : Int) : Dt :=
  let total := daysFromCivil dt.year dt.month dt.day * 86400
    + dt.hour * 3600 + dt.minute * 60 + dt.second + s
  let days := total / 86400
  let rem := total % 86400
  let c := civilFromDays days
  { year := c.1.toNat, month := c.2.1.toNat, day := c.2.2.toNat,
    hour := (rem / 3600).toNat, minute := (rem % 3600 / 60).toNat,
    second := (rem % 60).toNat, micro := dt.micro, offset := dt.offset }

/-- Ordering of events by start instant (the store's `orderBy="startTime"`). -/
def eventLe (a b : Event) : Prop := epochMicro a.start ≤ epochMicro b.start

instance : DecidableRel eventLe := fun a b => Int.decLe _ _

instance : IsTotal Event eventLe := ⟨fun a b => Int.le_total _ _⟩

instance : IsTrans Event eventLe := ⟨fun _ _ _ => Int.le_trans⟩

/-- The store's per-event selection: at or after the lower bound, and summary
matching the free-text term when given. -/
def matchesQuery (dtMin : Dt) (term : Option String) (e : Event) : Bool :=
  decide (epochMicro dtMin ≤ epochMicro e.start) &&
    (match term with
     | none => true
     | some t => strContains e.summary t)

/-- The store's `events().list(...).execute()` behaviour. -/
def store_list_events (st : Store) (timeMinStr : String) (maxResults : JVal)
    (q : Option JVal) : Except PyErr (List Event) := do
  let dtMin ← match dateparser_parse timeMinStr with
    | none => throw PyErr.httpError
    | some dt =>
      match dt.offset with
      | none => throw PyErr.httpError
      | some _ => pure dt
  let n ← match maxResults with
    | .num k => if 0 ≤ k then pure k.toNat else throw PyErr.httpError
    | _ => throw PyErr.httpError
  let term ← match q with
    | none => pure (none : Option String)
    | some (.str s) => pure (some s)
    | some _ => throw PyErr.httpError
  pure ((List.insertionSort eventLe (st.events.filter (matchesQuery dtMin term))).take n)

/-- Python `x if x else d` on an optional decoded value (`if not v: v = d`). -/
def default_falsy (v : Option JVal) (d : JVal) : JVal :=
  match v with
  | none => d
  | some x => if jfalsy x then d else x

/-- One call made to the calendar store, as recorded by the dispatcher. -/
inductive StoreCall where
  | insertEvent (calendarId : String) (summary : JVal) (startDT : String)
      (startTZ : String) (endDT : String) (endTZ : String)
  | listEvents (calendarId : String) (timeMin : String) (maxResults : JVal)
      (singleEvents : Bool) (orderBy : String) (q : Option JVal)
  | deleteEvent (calendarId : String) (eventId : String)

/-! ## Reply strings -/

def msg_cant_understand : String := "Sorry, I couldn" ++ apos ++ "t understand that."

def msg_cant_process : String := "Sorry, I couldn" ++ apos ++ "t process that request."

def msg_no_events : String := "No upcoming events found."

def msg_delete_not_found : String := "Couldn" ++ apos ++ "t find an event to delete."

def msg_created (summary : JVal) (s e : String) : String :=
  "✅ Created: " ++ pyStr summary ++ " (" ++ s ++ " → " ++ e ++ ")"

def msg_deleted (summary : JVal) : String := "🗑️ Deleted: " ++ pyStr summary

/-! ## Calendar actions (`app.py` lines 173-207) -/

/-- Embedding of `cal_create` (lines 173-180): build the event body, insert
into calendar `primary`; a store rejection raises `HttpError` out of the
function. -/
def cal_create (store : Store) (summary : JVal) (start_iso end_iso : String)
    (tz : Tz) : Except PyErr (String × List StoreCall) :=
  let call := StoreCall.insertEvent "primary" summary start_iso tz.name end_iso tz.name
  if store.insertFails then .error .httpError
  else .ok (msg_created summary start_iso end_iso, [call])

/-- Line 197's item rendering: the store returns the event start as its
dateTime string (all-day date events are outside the model). -/
def fmt_list_item (e : Event) : String :=
  "• " ++ e.summary ++ " — " ++ isoformat_auto e.start

/-- Embedding of `cal_list` (lines 182-197). -/
def cal_list (botTz : Tz) (now : Dt) (store : Store) (starting_from : Option JVal)
    (max_results : Option JVal) (tz : Tz) : Except PyErr (String × List StoreCall) := do
  let sfIso ← match starting_from with
    | none => pure (to_iso botTz now)
    | some v => if jfalsy v then pure (to_iso botTz now) else asStr v
  let dtMin ← match dateparser_parse sfIso with
    | none => throw PyErr.parserError
    | some dt => pure dt
  let timeMin := isoformat_auto dtMin
  let mr := default_falsy max_results (JVal.num 5)
  let call := StoreCall.listEvents "primary" timeMin mr true "startTime" none
  let items ← store_list_events store timeMin mr none
  if items.isEmpty then pure (msg_no_events, [call])
  else pure ("📅 " ++ String.intercalate "\n" (items.map fmt_list_item), [call])

/-- Embedding of `cal_delete` (lines 199-207): anchor from `ref_start_iso`
when truthy (else now), list up to 10 candidates filtered by the summary,
delete the first and report it, or report no match. -/
def cal_delete (botTz : Tz) (now : Dt) (store : Store) (summary : JVal)
    (ref_start_iso : Option String) (tz : Tz) : Except PyErr (String × List StoreCall) := do
  let search_from ← match ref_start_iso with
    | some s =>
      if s = "" then pure (to_iso botTz now)
      else
        match dateparser_parse s with
        | none => throw PyErr.parserError
        | some dt => pure (isoformat_auto dt)
    | none => pure (to_iso botTz now)
  let call := StoreCall.listEvents "primary" search_from (JVal.num 10) true "startTime" (some summary)
  let items ← store_list_events store search_from (JVal.num 10) (some summary)
  match items with
  | [] => pure (msg_delete_not_found, [call])
  | e :: _ =>
    pure (msg_deleted summary, [call, StoreCall.deleteEvent "primary" e.id])

/-! ## Message handler (`app.py` lines 215-247) -/

/-- Python `intent == s` where `intent` came from `parsed.get("intent")`:
true exactly for an equal string value. -/
def intent_is (intent : Option JVal) (s : String) : Bool :=
  match intent with
  | some (.str t) => t == s
  | _ => false

/-- Lines 229-232 applied to one raw field: a falsy value is left alone
(collapsed to `none` — absence and falsy values behave identically at every
later use), a truthy value must be a string and goes through
`ensure_iso_with_tz`. -/
def norm_ts (botTz : Tz) : Option JVal → Except PyErr (Option String)
  | none => .ok none
  | some v =>
    if jfalsy v then .ok none
    else do
      let s ← asStr v
      let r ← ensure_iso_with_tz botTz s botTz
      pure (some r)

/-- Embedding of `handle_message` (lines 215-247).  The reply text and the
sequence of store calls are returned; an uncaught Python exception is
`Except.error`. -/
def handle_message (botTz : Tz) (now : Dt) (store : Store) (userText : String)
    (resp : GeminiHttp) : Except PyErr (String × List StoreCall) := do
  let user_text := py_strip userText
  let parsed := gemini_parse_command user_text botTz now resp
  match parsed with
  | none => pure (msg_cant_understand, [])
  | some p =>
    if jfalsy p then pure (msg_cant_understand, [])
    else
      match p with
      | .obj kvs =>
        let intent := jget kvs "intent"
        let summary := (jget kvs "summary").getD (.str "Untitled Event")
        let start_iso ← norm_ts botTz (jget kvs "start")
        let end_iso ← norm_ts botTz (jget kvs "end")
        let starting_from := jget kvs "starting_from"
        let max_results := jget kvs "max_results"
        if intent_is intent "list" then
          cal_list botTz now store starting_from max_results botTz
        else if intent_is intent "create" then
          let start_iso2 := match start_iso with
            | some s => s
            | none => to_iso botTz { now with hour := 9, minute := 0 }
          let end_iso2 ← match end_iso with
            | some s => pure s
            | none =>
              match dateparser_parse start_iso2 with
              | none => throw PyErr.parserError
              | some dts => pure (to_iso botTz (dt_add_seconds dts 3600))
          cal_create store summary start_iso2 end_iso2 botTz
        else if intent_is intent "delete" then
          cal_delete botTz now store summary start_iso botTz
        else
          pure (msg_cant_process, [])
      | _ => throw PyErr.attributeError

/-! ## Concrete fixtures for witnesses and counterexamples -/

/-- A fixed-offset reference timezone (+05:30) for concrete runs. -/
def kolkataTz : Tz := ⟨"Asia/Kolkata", fun _ => 330⟩

/-- A concrete current instant, 2025-01-10 08:00:37 +05:30 — note the
nonzero seconds. -/
def nowFix : Dt := ⟨2025, 1, 10, 8, 0, 37, 0, some 330⟩

def emptyStore : Store := ⟨[], false⟩

/-- A service response whose single candidate part carries text `t`. -/
def respWithText (t : String) : GeminiHttp :=
  .response 200 (some ⟨some [⟨some ⟨some [.dict (some (.str t))]⟩⟩]⟩)

/-! ## Helper lemmas -/

/-- Wall-clock well-formedness needed for rendering round trips. -/
def Dt.renderOk (dt : Dt) : Prop :=
  dt.year < 10000 ∧ 1 ≤ dt.month ∧ dt.month ≤ 12 ∧ 1 ≤ dt.day ∧ dt.day ≤ 31 ∧
  dt.hour ≤ 23 ∧ dt.minute ≤ 59 ∧ dt.second ≤ 59

instance (dt : Dt) : Decidable dt.renderOk := by
  unfold Dt.renderOk
  infer_instance

theorem isoformat_auto_eq_seconds (dt : Dt) (h : dt.micro = 0) :
    isoformat_auto dt = isoformat_seconds dt := by
  simp [isoformat_auto, isoformat_seconds, isoSecondsChars, h]

theorem to_iso_aware (botTz : Tz) (dt : Dt) (z : Int) (hz : dt.offset = some z) :
    to_iso botTz dt = isoformat_seconds dt := by
  simp [to_iso, hz]

theorem dateparser_parse_isoformat_seconds (dt : Dt) (z : Int) (hz : dt.offset = some z)
    (hr : dt.renderOk) (hzb : z.natAbs ≤ 1439) :
    dateparser_parse (isoformat_seconds dt) = some { dt with micro := 0 } := by
  obtain ⟨h1, h2, h3, h4, h5, h6, h7, h8⟩ := hr
  show parseDtChars (isoSecondsChars dt) = _
  exact parseDtChars_isoSecondsChars dt z hz h1 h2 h3 h4 h5 h6 h7 h8 hzb

theorem store_list_events_ok_none (st : Store) (s : String) (dtm : Dt) (z : Int)
    (hp : dateparser_parse s = some dtm) (hz : dtm.offset = some z)
    (k : Int) (hk : 0 ≤ k) :
    store_list_events st s (JVal.num k) none =
      .ok ((List.insertionSort eventLe (st.events.filter (matchesQuery dtm none))).take k.toNat) := by
  simp [store_list_events, hp, hz, hk, pure, Except.pure, bind, Except.bind]

theorem store_list_events_ok_str (st : Store) (s : String) (dtm : Dt) (z : Int)
    (hp : dateparser_parse s = some dtm) (hz : dtm.offset = some z)
    (k : Int) (hk : 0 ≤ k) (t : String) :
    store_list_events st s (JVal.num k) (some (JVal.str t)) =
      .ok ((List.insertionSort eventLe (st.events.filter (matchesQuery dtm (some t)))).take k.toNat) := by
  simp [store_list_events, hp, hz, hk, pure, Except.pure, bind, Except.bind]

theorem insertionSort_head_min (l : List Event) (e : Event) (rest : List Event)
    (h : List.insertionSort eventLe l = e :: rest) :
    e ∈ l ∧ ∀ x ∈ l, eventLe e x := by
  have hs := List.sorted_insertionSort eventLe l
  rw [h] at hs
  have hperm := List.perm_insertionSort eventLe l
  rw [h] at hperm
  refine ⟨hperm.mem_iff.mp (List.mem_cons_self e rest), ?_⟩
  intro x hx
  have hx2 : x ∈ e :: rest := hperm.mem_iff.mpr hx
  rcases List.mem_cons.mp hx2 with hxe | hx3
  · rw [hxe]
    exact Int.le_refl _
  · exact List.rel_of_sorted_cons hs x hx3

theorem insertionSort_ne_nil (l : List Event) (h : l ≠ []) :
    List.insertionSort eventLe l ≠ [] := by
  intro hc
  have hlen := (List.perm_insertionSort eventLe l).length_eq
  rw [hc] at hlen
  exact h (List.length_eq_zero.mp hlen.symm)

/-! ## Claim C1 -/

/-- C1 as stated is false: handling a message CAN raise past the dispatcher —
with a create command whose start field does not parse, `handle_message`
raises `ParserError` instead of producing a reply. -/
theorem C1_boundary_counterexample :
    handle_message kolkataTz nowFix emptyStore "x"
      (respWithText "\x7b\"intent\":\"create\",\"start\":\"garbage\"\x7d") =
    .error .parserError := by rfl

/-- C1 (amended): translation failures are absorbed at the boundary (generic
could-not-understand reply, no store call) and unrecognized intents get the
could-not-process reply; but normalization and store failures are NOT
absorbed — an unparsable start timestamp raises `ParserError`, and a store
rejection during create raises `HttpError`, both uncaught out of
`handle_message`. -/
theorem C1_boundary_amended :
    (∀ (botTz : Tz) (now : Dt) (store : Store) (userText : String) (resp : GeminiHttp),
      gemini_parse_command (py_strip userText) botTz now resp = none →
      handle_message botTz now store userText resp = .ok (msg_cant_understand, [])) ∧
    (∀ (botTz : Tz) (now : Dt) (store : Store) (userText : String) (resp : GeminiHttp)
        (kvs : List (String × JVal)),
      gemini_parse_command (py_strip userText) botTz now resp = some (.obj kvs) →
      kvs.isEmpty = false →
      jget kvs "intent" = none →
      jget kvs "start" = none → jget kvs "end" = none →
      handle_message botTz now store userText resp = .ok (msg_cant_process, [])) ∧
    (∀ (botTz : Tz) (now : Dt) (store : Store) (userText : String) (resp : GeminiHttp)
        (kvs : List (String × JVal)) (s : String),
      gemini_parse_command (py_strip userText) botTz now resp = some (.obj kvs) →
      kvs.isEmpty = false →
      jget kvs "start" = some (.str s) → s ≠ "" →
      dateparser_parse s = none →
      handle_message botTz now store userText resp = .error .parserError) ∧
    (∀ (botTz : Tz) (now : Dt) (store : Store) (userText : String) (resp : GeminiHttp)
        (kvs : List (String × JVal)) (s1 s2 S E : String),
      gemini_parse_command (py_strip userText) botTz now resp = some (.obj kvs) →
      kvs.isEmpty = false →
      jget kvs "intent" = some (.str "create") →
      jget kvs "start" = some (.str s1) → s1 ≠ "" →
      jget kvs "end" = some (.str s2) → s2 ≠ "" →
      ensure_iso_with_tz botTz s1 botTz = .ok S →
      ensure_iso_with_tz botTz s2 botTz = .ok E →
      store.insertFails = true →
      handle_message botTz now store userText resp = .error .httpError) := by
  refine ⟨?_, ?_, ?_, ?_⟩
  · intro botTz now store userText resp hg
    simp [handle_message, hg, pure, Except.pure]
  · intro botTz now store userText resp kvs hg hfal hint hstart hend
    simp [handle_message, hg, jfalsy, hfal, hint, hstart, hend, norm_ts,
      intent_is, bind, Except.bind, pure, Except.pure]
  · intro botTz now store userText resp kvs s hg hfal hstart hsne hp
    simp [handle_message, hg, jfalsy, hfal, hstart, hsne, norm_ts, asStr,
      ensure_iso_with_tz, hp, bind, Except.bind, pure, Except.pure]
  · intro botTz now store userText resp kvs s1 s2 S E hg hfal hint hstart hs1
      hend hs2 he1 he2 hins
    simp [handle_message, hg, jfalsy, hfal, hint, hstart, hs1, hend, hs2,
      he1, he2, norm_ts, asStr, intent_is, cal_create, hins,
      bind, Except.bind, pure, Except.pure]

/-- Witness for the amended C1 at concrete inputs, one per conjunct. -/
theorem C1_boundary_amended_witness :
    handle_message kolkataTz nowFix emptyStore "hi" .netError
      = .ok (msg_cant_understand, []) ∧
    handle_message kolkataTz nowFix emptyStore "zz"
      (respWithText "\x7b\"calendar_id\":\"primary\"\x7d") = .ok (msg_cant_process, []) ∧
    handle_message kolkataTz nowFix emptyStore "x"
      (respWithText "\x7b\"intent\":\"list\",\"start\":\"glorp\"\x7d") = .error .parserError ∧
    handle_message kolkataTz nowFix ⟨[], true⟩ "x"
      (respWithText "\x7b\"intent\":\"create\",\"start\":\"2025-03-01T10:00:00\",\"end\":\"2025-03-01T11:00:00\"\x7d")
      = .error .httpError :=
  ⟨C1_boundary_amended.1 _ _ _ _ _ (by rfl),
   C1_boundary_amended.2.1 _ _ _ _ _ _ (by rfl) (by rfl) (by rfl) (by rfl) (by rfl),
   C1_boundary_amended.2.2.1 _ _ _ _ _ _ _ (by rfl) (by rfl) (by rfl) (by decide) (by rfl),
   C1_boundary_amended.2.2.2 _ _ _ _ _ _ "2025-03-01T10:00:00" "2025-03-01T11:00:00"
     "2025-03-01T10:00:00+05:30" "2025-03-01T11:00:00+05:30"
     (by rfl) (by rfl) (by rfl) (by rfl) (by decide) (by rfl) (by decide)
     (by rfl) (by rfl) (by rfl)⟩

/-! ## Claim C2 -/

/-- C2 as stated is false: a delete command with no summary field does not
fail with any MissingSearchTerm; the search term silently defaults to
"Untitled Event" and a matching event IS deleted. -/
theorem C2_counterexample :
    handle_message kolkataTz nowFix
      ⟨[⟨"ev1", "Untitled Event planning", ⟨2025, 2, 1, 10, 0, 0, 0, some 330⟩⟩], false⟩
      "x" (respWithText "\x7b\"intent\":\"delete\"\x7d") =
    .ok (msg_deleted (.str "Untitled Event"),
      [StoreCall.listEvents "primary" "2025-01-10T08:00:37+05:30" (JVal.num 10) true
        "startTime" (some (.str "Untitled Event")),
       StoreCall.deleteEvent "primary" "ev1"]) := by rfl

/-- C2 (amended): for a delete command whose raw translation has no summary
field, normalization does not fail — the summary defaults to the placeholder
"Untitled Event" and the delete path proceeds with it as the search term. -/
theorem C2_default_summary_amended (botTz : Tz) (now : Dt) (store : Store)
    (userText : String) (resp : GeminiHttp) (kvs : List (String × JVal))
    (hg : gemini_parse_command (py_strip userText) botTz now resp = some (.obj kvs))
    (hfal : kvs.isEmpty = false)
    (hint : jget kvs "intent" = some (.str "delete"))
    (hsum : jget kvs "summary" = none)
    (hstart : jget kvs "start" = none) (hend : jget kvs "end" = none) :
    handle_message botTz now store userText resp =
      cal_delete botTz now store (.str "Untitled Event") none botTz := by
  simp [handle_message, hg, jfalsy, hfal, hint, hsum, hstart, hend, norm_ts,
    intent_is, bind, Except.bind, pure, Except.pure]

/-- Witness for the amended C2 at a concrete input. -/
theorem C2_default_summary_amended_witness :
    handle_message kolkataTz nowFix emptyStore "x"
      (respWithText "\x7b\"intent\":\"delete\"\x7d") =
      cal_delete kolkataTz nowFix emptyStore (.str "Untitled Event") none kolkataTz :=
  C2_default_summary_amended kolkataTz nowFix emptyStore "x" _ _
    (by rfl) (by rfl) (by rfl) (by rfl) (by rfl) (by rfl)

/-! ## Claim C3 -/

/-- With no anchor given, `cal_list` anchors at now and issues one list call
whose `maxResults` is the falsy-defaulted raw value, passed through
unchanged. -/
theorem cal_list_default_anchor (botTz : Tz) (now : Dt) (z : Int) (store : Store)
    (mr : Option JVal) (k : Int)
    (hz : now.offset = some z) (hr : now.renderOk) (hzb : z.natAbs ≤ 1439)
    (hmr : default_falsy mr (JVal.num 5) = JVal.num k) (hk : 0 ≤ k) :
    ∃ reply, cal_list botTz now store none mr botTz =
      .ok (reply, [StoreCall.listEvents "primary" (isoformat_auto { now with micro := 0 })
        (JVal.num k) true "startTime" none]) := by
  have h1 : to_iso botTz now = isoformat_seconds now := to_iso_aware botTz now z hz
  have h2 : dateparser_parse (isoformat_seconds now) = some { now with micro := 0 } :=
    dateparser_parse_isoformat_seconds now z hz hr hzb
  have hz2 : ({ now with micro := 0 } : Dt).offset = some z := hz
  have hr2 : ({ now with micro := 0 } : Dt).renderOk := hr
  have h3 : isoformat_auto { now with micro := 0 } = isoformat_seconds { now with micro := 0 } :=
    isoformat_auto_eq_seconds _ rfl
  have h4 : dateparser_parse (isoformat_auto { now with micro := 0 }) = some { now with micro := 0 } := by
    rw [h3]
    have h5 := dateparser_parse_isoformat_seconds { now with micro := 0 } z hz2 hr2 hzb
    simpa using h5
  have h6 := store_list_events_ok_none store (isoformat_auto { now with micro := 0 })
    { now with micro := 0 } z h4 hz2 k hk
  by_cases he : ((List.insertionSort eventLe (store.events.filter
      (matchesQuery { now with micro := 0 } none))).take k.toNat) = []
  · refine ⟨msg_no_events, ?_⟩
    simp [cal_list, h1, h2, hmr, h6, he, bind, Except.bind, pure, Except.pure]
  · refine ⟨"📅 " ++ String.intercalate "\n"
      (((List.insertionSort eventLe (store.events.filter
        (matchesQuery { now with micro := 0 } none))).take k.toNat).map fmt_list_item), ?_⟩
    simp [cal_list, h1, h2, hmr, h6, he, bind, Except.bind, pure, Except.pure]

/-- C3 as stated is false in its clamping half: given `max_results` 1000 the
store query uses 1000, not any configured maximum such as 50. -/
theorem C3_counterexample :
    handle_message kolkataTz nowFix emptyStore "x"
      (respWithText "\x7b\"intent\":\"list\",\"max_results\":1000\x7d") =
    .ok (msg_no_events, [StoreCall.listEvents "primary" "2025-01-10T08:00:37+05:30"
      (JVal.num 1000) true "startTime" none]) ∧
    JVal.num 1000 ≠ JVal.num 50 := by
  constructor
  · rfl
  · intro h
    injection h with h2
    exact absurd h2 (by decide)

/-- C3 (amended): with no `max_results` the canonical value is 5; a given
positive value (e.g. 1000) is passed to the store query unchanged — the code
applies no clamping. -/
theorem C3_max_results_amended (botTz : Tz) (now : Dt) (z : Int) (store : Store)
    (hz : now.offset = some z) (hr : now.renderOk) (hzb : z.natAbs ≤ 1439) :
    (∃ reply, cal_list botTz now store none none botTz =
      .ok (reply, [StoreCall.listEvents "primary" (isoformat_auto { now with micro := 0 })
        (JVal.num 5) true "startTime" none])) ∧
    (∀ k : Int, 0 < k → ∃ reply, cal_list botTz now store none (some (JVal.num k)) botTz =
      .ok (reply, [StoreCall.listEvents "primary" (isoformat_auto { now with micro := 0 })
        (JVal.num k) true "startTime" none])) := by
  constructor
  · exact cal_list_default_anchor botTz now z store none 5 hz hr hzb (by rfl) (by decide)
  · intro k hkpos
    refine cal_list_default_anchor botTz now z store (some (JVal.num k)) k hz hr hzb ?_ (le_of_lt hkpos)
    simp [default_falsy, jfalsy]
    omega

/-- Witness for the amended C3 at concrete inputs: default 5, and 1000
unclamped. -/
theorem C3_max_results_amended_witness :
    (∃ reply, cal_list kolkataTz nowFix emptyStore none none kolkataTz =
      .ok (reply, [StoreCall.listEvents "primary"
        (isoformat_auto { nowFix with micro := 0 }) (JVal.num 5) true "startTime" none])) ∧
    (∃ reply, cal_list kolkataTz nowFix emptyStore none (some (JVal.num 1000)) kolkataTz =
      .ok (reply, [StoreCall.listEvents "primary"
        (isoformat_auto { nowFix with micro := 0 }) (JVal.num 1000) true "startTime" none])) := by
  have h := C3_max_results_amended kolkataTz nowFix 330 emptyStore (by rfl) (by decide) (by decide)
  exact ⟨h.1, h.2 1000 (by decide)⟩

/-! ## Claim C5 -/

/-- C5: every transport or shape failure of the reasoning-service call makes
the adapter return None rather than raise — network error, non-success
status, undecodable response body, empty/absent payload text, and JSON-parse
failure of the command text — and a None translation yields the generic
could-not-understand reply with no store call. -/
theorem C5_translator_failures_absorbed :
    (∀ (u : String) (botTz : Tz) (now : Dt),
      gemini_parse_command u botTz now .netError = none) ∧
    (∀ (u : String) (botTz : Tz) (now : Dt) (st : Nat) (body : Option GPayload),
      400 ≤ st → gemini_parse_command u botTz now (.response st body) = none) ∧
    (∀ (u : String) (botTz : Tz) (now : Dt) (st : Nat),
      ¬ 400 ≤ st → gemini_parse_command u botTz now (.response st none) = none) ∧
    (∀ (u : String) (botTz : Tz) (now : Dt) (st : Nat) (p : GPayload),
      ¬ 400 ≤ st → extract_text p = none →
      gemini_parse_command u botTz now (.response st (some p)) = none) ∧
    (∀ (u : String) (botTz : Tz) (now : Dt) (st : Nat) (p : GPayload) (tv : JVal),
      ¬ 400 ≤ st → extract_text p = some tv → jfalsy tv = true →
      gemini_parse_command u botTz now (.response st (some p)) = none) ∧
    (∀ (u : String) (botTz : Tz) (now : Dt) (st : Nat) (p : GPayload) (t : String),
      ¬ 400 ≤ st → extract_text p = some (.str t) →
      json_loads ((regex_extract_obj (py_strip t)).getD (py_strip t)) = none →
      gemini_parse_command u botTz now (.response st (some p)) = none) ∧
    (∀ (botTz : Tz) (now : Dt) (store : Store) (u : String) (resp : GeminiHttp),
      gemini_parse_command (py_strip u) botTz now resp = none →
      handle_message botTz now store u resp = .ok (msg_cant_understand, [])) := by
  refine ⟨?_, ?_, ?_, ?_, ?_, ?_, ?_⟩
  · intro u botTz now
    simp [gemini_parse_command, gemini_try, bind, Except.bind, pure, Except.pure, throw]
  · intro u botTz now st body hst
    simp [gemini_parse_command, gemini_try, hst, bind, Except.bind, pure, Except.pure, throw]
  · intro u botTz now st hst
    simp [gemini_parse_command, gemini_try, hst, bind, Except.bind, pure, Except.pure, throw]
  · intro u botTz now st p hst he
    simp [gemini_parse_command, gemini_try, hst, he, bind, Except.bind, pure, Except.pure, throw]
  · intro u botTz now st p tv hst he hfal
    simp [gemini_parse_command, gemini_try, hst, he, hfal, bind, Except.bind, pure, Except.pure, throw]
  · intro u botTz now st p t hst he hj
    by_cases hb : t = "" <;>
      simp [gemini_parse_command, gemini_try, hst, he, hj, hb, jfalsy,
        bind, Except.bind, pure, Except.pure, throw]
  · intro botTz now store u resp hg
    simp [handle_message, hg, pure, Except.pure]

/-- Witness for C5 at concrete inputs, one per failure mode. -/
theorem C5_translator_failures_absorbed_witness :
    gemini_parse_command "hi" kolkataTz nowFix .netError = none ∧
    gemini_parse_command "hi" kolkataTz nowFix (.response 500 none) = none ∧
    gemini_parse_command "hi" kolkataTz nowFix (.response 200 none) = none ∧
    gemini_parse_command "hi" kolkataTz nowFix (.response 200 (some ⟨none⟩)) = none ∧
    gemini_parse_command "hi" kolkataTz nowFix (respWithText "") = none ∧
    gemini_parse_command "hi" kolkataTz nowFix (respWithText "no json here") = none ∧
    handle_message kolkataTz nowFix emptyStore "hi" .netError = .ok (msg_cant_understand, []) :=
  ⟨C5_translator_failures_absorbed.1 "hi" kolkataTz nowFix,
   C5_translator_failures_absorbed.2.1 "hi" kolkataTz nowFix 500 none (by decide),
   C5_translator_failures_absorbed.2.2.1 "hi" kolkataTz nowFix 200 (by decide),
   C5_translator_failures_absorbed.2.2.2.1 "hi" kolkataTz nowFix 200 ⟨none⟩ (by decide) (by rfl),
   C5_translator_failures_absorbed.2.2.2.2.1 "hi" kolkataTz nowFix 200 _ (.str "")
     (by decide) (by rfl) (by rfl),
   C5_translator_failures_absorbed.2.2.2.2.2.1 "hi" kolkataTz nowFix 200 _ "no json here"
     (by decide) (by rfl) (by rfl),
   C5_translator_failures_absorbed.2.2.2.2.2.2 kolkataTz nowFix emptyStore "hi" .netError (by rfl)⟩

/-! ## Claim C10 -/

/-- C10: keyword-based intent inference runs only after a JSON value has been
parsed out of the response text — when nothing parses, the adapter returns
None even though the user text contains create/delete/list cue words; the
fallback never rescues an unparseable translation. -/
theorem C10_keyword_fallback_needs_parse (u : String) (botTz : Tz) (now : Dt)
    (st : Nat) (p : GPayload) (t : String)
    (hkw : kwAny (py_lower u) create_keywords = true ∨
           kwAny (py_lower u) delete_keywords = true ∨
           kwAny (py_lower u) list_keywords = true)
    (hst : ¬ 400 ≤ st)
    (he : extract_text p = some (.str t))
    (hj : json_loads ((regex_extract_obj (py_strip t)).getD (py_strip t)) = none) :
    gemini_parse_command u botTz now (.response st (some p)) = none := by
  by_cases hb : t = "" <;>
    simp [gemini_parse_command, gemini_try, hst, he, hj, hb, jfalsy,
      bind, Except.bind, pure, Except.pure, throw]

/-- Witness for C10: cue word "delete" present, response text unparseable. -/
theorem C10_keyword_fallback_needs_parse_witness :
    gemini_parse_command "delete my meeting" kolkataTz nowFix
      (respWithText "I will delete it.") = none :=
  C10_keyword_fallback_needs_parse "delete my meeting" kolkataTz nowFix 200 _
    "I will delete it." (Or.inr (Or.inl (by rfl))) (by decide) (by rfl) (by rfl)

/-! ## Claim C6 -/

/-- C6 as stated is false in its 09:00 half: `.replace(hour=9, minute=0)`
keeps the current seconds, so with now at 08:00:37 the canonical start is
09:00:37 — not 09:00 — while the end is still start plus one hour. -/
theorem C6_counterexample :
    handle_message kolkataTz nowFix emptyStore "x"
      (respWithText "\x7b\"intent\":\"create\",\"summary\":\"hi\"\x7d") =
    .ok (msg_created (.str "hi") "2025-01-10T09:00:37+05:30" "2025-01-10T10:00:37+05:30",
      [StoreCall.insertEvent "primary" (.str "hi") "2025-01-10T09:00:37+05:30"
        "Asia/Kolkata" "2025-01-10T10:00:37+05:30" "Asia/Kolkata"]) ∧
    "2025-01-10T09:00:37+05:30" ≠ "2025-01-10T09:00:00+05:30" :=
  ⟨by rfl, by decide⟩

/-- C6 (amended): for a create command lacking start, the canonical start is
now with the hour set to 9 and the minute to 0 — today at 09:00 but retaining
the current instant's seconds (and sub-second part until rendering truncates
it); when end is also absent, the canonical end is that start plus one hour. -/
theorem C6_create_defaults_amended (botTz : Tz) (now : Dt) (store : Store)
    (userText : String) (resp : GeminiHttp) (kvs : List (String × JVal)) (d9 : Dt)
    (hg : gemini_parse_command (py_strip userText) botTz now resp = some (.obj kvs))
    (hfal : kvs.isEmpty = false)
    (hint : jget kvs "intent" = some (.str "create"))
    (hstart : jget kvs "start" = none) (hend : jget kvs "end" = none)
    (hins : store.insertFails = false)
    (hd9 : dateparser_parse (to_iso botTz { now with hour := 9, minute := 0 }) = some d9) :
    handle_message botTz now store userText resp =
      .ok (msg_created ((jget kvs "summary").getD (.str "Untitled Event"))
            (to_iso botTz { now with hour := 9, minute := 0 })
            (to_iso botTz (dt_add_seconds d9 3600)),
        [StoreCall.insertEvent "primary" ((jget kvs "summary").getD (.str "Untitled Event"))
          (to_iso botTz { now with hour := 9, minute := 0 }) botTz.name
          (to_iso botTz (dt_add_seconds d9 3600)) botTz.name]) := by
  simp [handle_message, hg, jfalsy, hfal, hint, hstart, hend, norm_ts, intent_is,
    hd9, cal_create, hins, bind, Except.bind, pure, Except.pure]

set_option maxHeartbeats 1000000 in
/-- Witness for the amended C6 at the concrete instant 08:00:37 +05:30. -/
theorem C6_create_defaults_amended_witness :
    handle_message kolkataTz nowFix emptyStore "x"
      (respWithText "\x7b\"intent\":\"create\",\"summary\":\"hi\"\x7d") =
      .ok (msg_created (.str "hi")
            (to_iso kolkataTz { nowFix with hour := 9, minute := 0 })
            (to_iso kolkataTz (dt_add_seconds ⟨2025, 1, 10, 9, 0, 37, 0, some 330⟩ 3600)),
        [StoreCall.insertEvent "primary" (.str "hi")
          (to_iso kolkataTz { nowFix with hour := 9, minute := 0 }) kolkataTz.name
          (to_iso kolkataTz (dt_add_seconds ⟨2025, 1, 10, 9, 0, 37, 0, some 330⟩ 3600)) kolkataTz.name]) :=
  C6_create_defaults_amended kolkataTz nowFix emptyStore "x"
    (respWithText "\x7b\"intent\":\"create\",\"summary\":\"hi\"\x7d")
    [("intent", .str "create"), ("summary", .str "hi")]
    ⟨2025, 1, 10, 9, 0, 37, 0, some 330⟩
    (by rfl) (by rfl) (by rfl) (by rfl) (by rfl) (by rfl) (by rfl)

/-! ## Claim C9 -/

/-- Spec-side notion for C9: whether a string still contains emoji code
points (the claim says they are stripped before reaching the store). -/
def contains_emoji (s : String) : Bool :=
  s.toList.any (fun c => 0x1F300 ≤ c.toNat ∧ c.toNat ≤ 0x1FAFF)

/-- C9 as stated is false: the code performs no emoji stripping — a summary
containing an emoji reaches the calendar store verbatim. -/
theorem C9_counterexample :
    handle_message kolkataTz nowFix emptyStore "x"
      (respWithText "\x7b\"intent\":\"create\",\"summary\":\"party 🎉\",\"start\":\"2025-03-01T10:00:00+05:30\",\"end\":\"2025-03-01T11:00:00+05:30\"\x7d") =
    .ok (msg_created (.str "party 🎉") "2025-03-01T10:00:00+05:30" "2025-03-01T11:00:00+05:30",
      [StoreCall.insertEvent "primary" (.str "party 🎉") "2025-03-01T10:00:00+05:30"
        "Asia/Kolkata" "2025-03-01T11:00:00+05:30" "Asia/Kolkata"]) ∧
    contains_emoji "party 🎉" = true :=
  ⟨by rfl, by rfl⟩

/-- C9 (amended): the summary reaches the calendar store exactly as produced
by the translator (or as the "Untitled Event" placeholder when absent); no
emoji or decoration stripping is performed anywhere on the create path. -/
theorem C9_summary_unchanged_amended (botTz : Tz) (now : Dt) (store : Store)
    (userText : String) (resp : GeminiHttp) (kvs : List (String × JVal))
    (s1 s2 S E : String)
    (hg : gemini_parse_command (py_strip userText) botTz now resp = some (.obj kvs))
    (hfal : kvs.isEmpty = false)
    (hint : jget kvs "intent" = some (.str "create"))
    (hstart : jget kvs "start" = some (.str s1)) (hs1 : s1 ≠ "")
    (hend : jget kvs "end" = some (.str s2)) (hs2 : s2 ≠ "")
    (he1 : ensure_iso_with_tz botTz s1 botTz = .ok S)
    (he2 : ensure_iso_with_tz botTz s2 botTz = .ok E)
    (hins : store.insertFails = false) :
    handle_message botTz now store userText resp =
      .ok (msg_created ((jget kvs "summary").getD (.str "Untitled Event")) S E,
        [StoreCall.insertEvent "primary" ((jget kvs "summary").getD (.str "Untitled Event"))
          S botTz.name E botTz.name]) := by
  simp [handle_message, hg, jfalsy, hfal, hint, hstart, hs1, hend, hs2, he1, he2,
    norm_ts, asStr, intent_is, cal_create, hins, bind, Except.bind, pure, Except.pure]

set_option maxHeartbeats 1000000 in
/-- Witness for the amended C9: an emoji summary flows through unchanged. -/
theorem C9_summary_unchanged_amended_witness :
    handle_message kolkataTz nowFix emptyStore "x"
      (respWithText "\x7b\"intent\":\"create\",\"summary\":\"hi 🎉\",\"start\":\"2025-03-01T10:00:00+05:30\",\"end\":\"2025-03-01T11:00:00+05:30\"\x7d") =
      .ok (msg_created (.str "hi 🎉") "2025-03-01T10:00:00+05:30" "2025-03-01T11:00:00+05:30",
        [StoreCall.insertEvent "primary" (.str "hi 🎉") "2025-03-01T10:00:00+05:30"
          kolkataTz.name "2025-03-01T11:00:00+05:30" kolkataTz.name]) :=
  C9_summary_unchanged_amended kolkataTz nowFix emptyStore "x"
    (respWithText "\x7b\"intent\":\"create\",\"summary\":\"hi 🎉\",\"start\":\"2025-03-01T10:00:00+05:30\",\"end\":\"2025-03-01T11:00:00+05:30\"\x7d")
    [("intent", .str "create"), ("summary", .str "hi 🎉"),
     ("start", .str "2025-03-01T10:00:00+05:30"), ("end", .str "2025-03-01T11:00:00+05:30")]
    "2025-03-01T10:00:00+05:30" "2025-03-01T11:00:00+05:30"
    "2025-03-01T10:00:00+05:30" "2025-03-01T11:00:00+05:30"
    (by rfl) (by rfl) (by rfl) (by rfl) (by decide) (by rfl) (by decide)
    (by rfl) (by rfl) (by rfl)

/-! ## Claim C7 -/

theorem dateparser_parse_isoformat_auto (dtm : Dt) (z : Int) (hz : dtm.offset = some z)
    (hmic : dtm.micro = 0) (hr : dtm.renderOk) (hzb : z.natAbs ≤ 1439) :
    dateparser_parse (isoformat_auto dtm) = some dtm := by
  rw [isoformat_auto_eq_seconds dtm hmic]
  have h5 := dateparser_parse_isoformat_seconds dtm z hz hr hzb
  have hedt : ({ dtm with micro := 0 } : Dt) = dtm := by rw [← hmic]
  rw [h5, hedt]

theorem dateparser_parse_to_iso (botTz : Tz) (now : Dt) (z : Int) (hz : now.offset = some z)
    (hr : now.renderOk) (hzb : z.natAbs ≤ 1439) :
    dateparser_parse (to_iso botTz now) = some { now with micro := 0 } := by
  rw [to_iso_aware botTz now z hz]
  exact dateparser_parse_isoformat_seconds now z hz hr hzb

/-- C7: for a delete command with a parseable anchor, when no stored event
matches the bounded, summary-filtered, start-ascending window, the reply says
no event was found and no delete call is issued; when matches exist, exactly
the earliest match is deleted and the reply reports the removal. -/
theorem C7_delete_first_match (botTz : Tz) (now : Dt) (store : Store) (q : String)
    (s : String) (dtm : Dt) (z : Int)
    (hsne : s ≠ "")
    (hp : dateparser_parse s = some dtm) (hz : dtm.offset = some z)
    (hmic : dtm.micro = 0) (hr : dtm.renderOk) (hzb : z.natAbs ≤ 1439) :
    (store.events.filter (matchesQuery dtm (some q)) = [] →
      cal_delete botTz now store (.str q) (some s) botTz =
        .ok (msg_delete_not_found,
          [StoreCall.listEvents "primary" (isoformat_auto dtm) (JVal.num 10) true
            "startTime" (some (.str q))])) ∧
    (store.events.filter (matchesQuery dtm (some q)) ≠ [] →
      ∃ e rest,
        List.insertionSort eventLe (store.events.filter (matchesQuery dtm (some q))) = e :: rest ∧
        e ∈ store.events.filter (matchesQuery dtm (some q)) ∧
        (∀ x ∈ store.events.filter (matchesQuery dtm (some q)),
          epochMicro e.start ≤ epochMicro x.start) ∧
        cal_delete botTz now store (.str q) (some s) botTz =
          .ok (msg_deleted (.str q),
            [StoreCall.listEvents "primary" (isoformat_auto dtm) (JVal.num 10) true
              "startTime" (some (.str q)),
             StoreCall.deleteEvent "primary" e.id])) := by
  have h4 : dateparser_parse (isoformat_auto dtm) = some dtm :=
    dateparser_parse_isoformat_auto dtm z hz hmic hr hzb
  have h6 := store_list_events_ok_str store (isoformat_auto dtm) dtm z h4 hz 10 (by decide) q
  constructor
  · intro he
    simp [cal_delete, hsne, hp, h6, he, bind, Except.bind, pure, Except.pure]
  · intro he
    obtain ⟨e, rest, hsort⟩ : ∃ e rest,
        List.insertionSort eventLe (store.events.filter (matchesQuery dtm (some q))) = e :: rest := by
      cases hs2 : List.insertionSort eventLe (store.events.filter (matchesQuery dtm (some q))) with
      | nil => exact absurd hs2 (insertionSort_ne_nil _ he)
      | cons a b => exact ⟨a, b, rfl⟩
    obtain ⟨hmem, hmin⟩ := insertionSort_head_min _ e rest hsort
    refine ⟨e, rest, hsort, hmem, hmin, ?_⟩
    simp [cal_delete, hsne, hp, h6, hsort, bind, Except.bind, pure, Except.pure]

/-- Concrete fixtures for C7: two matching events, the later one listed
first in the store's backing list. -/
def c7anchor : Dt := ⟨2025, 1, 1, 0, 0, 0, 0, some 330⟩

def c7store : Store :=
  ⟨[⟨"late", "gym session", ⟨2025, 3, 1, 10, 0, 0, 0, some 330⟩⟩,
    ⟨"early", "gym class", ⟨2025, 2, 1, 10, 0, 0, 0, some 330⟩⟩], false⟩

/-- Witness for C7: the empty case replies not-found with no delete call, and
with two matches the earliest one is the event deleted. -/
theorem C7_delete_first_match_witness :
    (cal_delete kolkataTz nowFix emptyStore (.str "gym")
        (some "2025-01-01T00:00:00+05:30") kolkataTz =
      .ok (msg_delete_not_found,
        [StoreCall.listEvents "primary" (isoformat_auto c7anchor) (JVal.num 10) true
          "startTime" (some (.str "gym"))])) ∧
    (∃ e rest,
      List.insertionSort eventLe (c7store.events.filter (matchesQuery c7anchor (some "gym"))) = e :: rest ∧
      e ∈ c7store.events.filter (matchesQuery c7anchor (some "gym")) ∧
      (∀ x ∈ c7store.events.filter (matchesQuery c7anchor (some "gym")),
        epochMicro e.start ≤ epochMicro x.start) ∧
      cal_delete kolkataTz nowFix c7store (.str "gym")
          (some "2025-01-01T00:00:00+05:30") kolkataTz =
        .ok (msg_deleted (.str "gym"),
          [StoreCall.listEvents "primary" (isoformat_auto c7anchor) (JVal.num 10) true
            "startTime" (some (.str "gym")),
           StoreCall.deleteEvent "primary" e.id])) :=
  ⟨(C7_delete_first_match kolkataTz nowFix emptyStore "gym" "2025-01-01T00:00:00+05:30"
      c7anchor 330 (by decide) (by decide) (by rfl) (by rfl) (by decide) (by decide)).1 (by rfl),
   (C7_delete_first_match kolkataTz nowFix c7store "gym" "2025-01-01T00:00:00+05:30"
      c7anchor 330 (by decide) (by decide) (by rfl) (by rfl) (by decide) (by decide)).2 (by decide)⟩

/-! ## Claim C8 -/

/-- With an explicit truthy string anchor, `cal_list` uses it (parsed and
re-rendered) as the store query time bound. -/
theorem cal_list_explicit_anchor (botTz : Tz) (now : Dt) (store : Store)
    (s : String) (dtm : Dt) (z : Int)
    (hsne : s ≠ "") (hp : dateparser_parse s = some dtm) (hz : dtm.offset = some z)
    (hmic : dtm.micro = 0) (hr : dtm.renderOk) (hzb : z.natAbs ≤ 1439) :
    ∃ reply, cal_list botTz now store (some (.str s)) none botTz =
      .ok (reply, [StoreCall.listEvents "primary" (isoformat_auto dtm) (JVal.num 5)
        true "startTime" none]) := by
  have h4 : dateparser_parse (isoformat_auto dtm) = some dtm :=
    dateparser_parse_isoformat_auto dtm z hz hmic hr hzb
  have h6 := store_list_events_ok_none store (isoformat_auto dtm) dtm z h4 hz 5 (by decide)
  by_cases he : List.insertionSort eventLe (store.events.filter (matchesQuery dtm none)) = []
  · refine ⟨msg_no_events, ?_⟩
    simp [cal_list, hsne, jfalsy, default_falsy, asStr, hp, h6, he, bind, Except.bind, pure, Except.pure]
  · refine ⟨"📅 " ++ String.intercalate "\n"
      (((List.insertionSort eventLe (store.events.filter
        (matchesQuery dtm none))).take (5 : Int).toNat).map fmt_list_item), ?_⟩
    simp [cal_list, hsne, jfalsy, default_falsy, asStr, hp, h6, he, bind, Except.bind, pure, Except.pure]

/-- With no anchor, `cal_delete` anchors the store query at now. -/
theorem cal_delete_default_anchor (botTz : Tz) (now : Dt) (z : Int) (store : Store)
    (q : String) (hz : now.offset = some z) (hr : now.renderOk) (hzb : z.natAbs ≤ 1439) :
    ∃ reply rest, cal_delete botTz now store (.str q) none botTz =
      .ok (reply, StoreCall.listEvents "primary" (to_iso botTz now) (JVal.num 10)
        true "startTime" (some (.str q)) :: rest) := by
  have hpn : dateparser_parse (to_iso botTz now) = some { now with micro := 0 } :=
    dateparser_parse_to_iso botTz now z hz hr hzb
  have hzn : ({ now with micro := 0 } : Dt).offset = some z := hz
  have h6 := store_list_events_ok_str store (to_iso botTz now) { now with micro := 0 } z
    hpn hzn 10 (by decide) q
  simp only [Int.toNat_ofNat] at h6
  cases hitems : ((List.insertionSort eventLe (store.events.filter
      (matchesQuery { now with micro := 0 } (some q)))).take 10) with
  | nil =>
    exact ⟨msg_delete_not_found, [],
      by simp [cal_delete, h6, hitems, bind, Except.bind, pure, Except.pure]⟩
  | cons e rest2 =>
    exact ⟨msg_deleted (.str q), [StoreCall.deleteEvent "primary" e.id],
      by simp [cal_delete, h6, hitems, bind, Except.bind, pure, Except.pure]⟩

/-- C8 as stated is false for delete: with `starting_from` 2030-01-01 given
and no `start`, the delete path's store query is anchored at now
(2025-01-10), not at `starting_from`. -/
theorem C8_counterexample :
    handle_message kolkataTz nowFix emptyStore "x"
      (respWithText "\x7b\"intent\":\"delete\",\"summary\":\"gym\",\"starting_from\":\"2030-01-01T00:00:00+05:30\"\x7d") =
    .ok (msg_delete_not_found,
      [StoreCall.listEvents "primary" "2025-01-10T08:00:37+05:30" (JVal.num 10) true
        "startTime" (some (.str "gym"))]) ∧
    "2025-01-10T08:00:37+05:30" ≠ "2030-01-01T00:00:00+05:30" :=
  ⟨by rfl, by decide⟩

/-- C8 (amended): for list, `starting_from` is the store query's time lower
bound and defaults to now when absent; for delete, the anchor is the
(normalized) `start` field instead — `starting_from` never reaches the delete
path, whose anchor defaults to now. -/
theorem C8_anchor_amended :
    (∀ (botTz : Tz) (now : Dt) (store : Store) (s : String) (dtm : Dt) (z : Int),
      s ≠ "" → dateparser_parse s = some dtm → dtm.offset = some z →
      dtm.micro = 0 → dtm.renderOk → z.natAbs ≤ 1439 →
      ∃ reply, cal_list botTz now store (some (.str s)) none botTz =
        .ok (reply, [StoreCall.listEvents "primary" (isoformat_auto dtm) (JVal.num 5)
          true "startTime" none])) ∧
    (∀ (botTz : Tz) (now : Dt) (z : Int) (store : Store),
      now.offset = some z → now.renderOk → z.natAbs ≤ 1439 →
      ∃ reply, cal_list botTz now store none none botTz =
        .ok (reply, [StoreCall.listEvents "primary" (isoformat_auto { now with micro := 0 })
          (JVal.num 5) true "startTime" none])) ∧
    (∀ (botTz : Tz) (now : Dt) (store : Store) (userText : String) (resp : GeminiHttp)
        (kvs : List (String × JVal)),
      gemini_parse_command (py_strip userText) botTz now resp = some (.obj kvs) →
      kvs.isEmpty = false →
      jget kvs "intent" = some (.str "delete") →
      jget kvs "start" = none → jget kvs "end" = none →
      handle_message botTz now store userText resp =
        cal_delete botTz now store ((jget kvs "summary").getD (.str "Untitled Event"))
          none botTz) ∧
    (∀ (botTz : Tz) (now : Dt) (z : Int) (store : Store) (q : String),
      now.offset = some z → now.renderOk → z.natAbs ≤ 1439 →
      ∃ reply rest, cal_delete botTz now store (.str q) none botTz =
        .ok (reply, StoreCall.listEvents "primary" (to_iso botTz now) (JVal.num 10)
          true "startTime" (some (.str q)) :: rest)) := by
  refine ⟨?_, ?_, ?_, ?_⟩
  · intro botTz now store s dtm z hsne hp hz hmic hr hzb
    exact cal_list_explicit_anchor botTz now store s dtm z hsne hp hz hmic hr hzb
  · intro botTz now z store hz hr hzb
    exact cal_list_default_anchor botTz now z store none 5 hz hr hzb (by rfl) (by decide)
  · intro botTz now store userText resp kvs hg hfal hint hstart hend
    simp [handle_message, hg, jfalsy, hfal, hint, hstart, hend, norm_ts,
      intent_is, bind, Except.bind, pure, Except.pure]
  · intro botTz now z store q hz hr hzb
    exact cal_delete_default_anchor botTz now z store q hz hr hzb

/-- Witness for the amended C8 at concrete inputs. -/
theorem C8_anchor_amended_witness :
    (∃ reply, cal_list kolkataTz nowFix emptyStore
        (some (.str "2030-01-01T00:00:00+05:30")) none kolkataTz =
      .ok (reply, [StoreCall.listEvents "primary"
        (isoformat_auto ⟨2030, 1, 1, 0, 0, 0, 0, some 330⟩) (JVal.num 5)
        true "startTime" none])) ∧
    (∃ reply, cal_list kolkataTz nowFix emptyStore none none kolkataTz =
      .ok (reply, [StoreCall.listEvents "primary"
        (isoformat_auto { nowFix with micro := 0 }) (JVal.num 5) true "startTime" none])) ∧
    (handle_message kolkataTz nowFix emptyStore "x"
      (respWithText "\x7b\"intent\":\"delete\",\"summary\":\"gym\",\"starting_from\":\"2030-01-01T00:00:00+05:30\"\x7d") =
      cal_delete kolkataTz nowFix emptyStore (.str "gym") none kolkataTz) ∧
    (∃ reply rest, cal_delete kolkataTz nowFix emptyStore (.str "gym") none kolkataTz =
      .ok (reply, StoreCall.listEvents "primary" (to_iso kolkataTz nowFix) (JVal.num 10)
        true "startTime" (some (.str "gym")) :: rest)) :=
  ⟨C8_anchor_amended.1 kolkataTz nowFix emptyStore "2030-01-01T00:00:00+05:30"
      ⟨2030, 1, 1, 0, 0, 0, 0, some 330⟩ 330
      (by decide) (by decide) (by rfl) (by rfl) (by decide) (by decide),
   C8_anchor_amended.2.1 kolkataTz nowFix 330 emptyStore (by rfl) (by decide) (by decide),
   C8_anchor_amended.2.2.1 kolkataTz nowFix emptyStore "x"
      (respWithText "\x7b\"intent\":\"delete\",\"summary\":\"gym\",\"starting_from\":\"2030-01-01T00:00:00+05:30\"\x7d")
      [("intent", .str "delete"), ("summary", .str "gym"),
       ("starting_from", .str "2030-01-01T00:00:00+05:30")]
      (by rfl) (by rfl) (by rfl) (by rfl) (by rfl),
   C8_anchor_amended.2.2.2 kolkataTz nowFix 330 emptyStore "gym"
      (by rfl) (by decide) (by decide)⟩
